import Mathlib

/-!
Shallow embedding of the SlicerSynthSeg repository
(`SynthSegConfig.py`, `SlicerSynthSeg/SlicerSynthSeg.py`,
`SlicerSynthSeg/synthseg_complete.py`).

The Python code is filesystem / subprocess glue, so the embedding makes the
collaborators explicit: a filesystem oracle saying which paths exist, a
subprocess oracle saying what each invoked command returns, and the contents
of the files the pipeline reads.  Every definition mirrors one Python
function or block; the theorems below settle the specified properties.
-/

/-- A filesystem, as the configuration code observes it: which path strings
exist (`os.path.exists` / `Path.exists`). -/
structure FS where
  pathExists : String → Bool

/-- `Path p / name` on the Python side: one more path component. -/
def joinPath (p name : String) : String := p ++ "/" ++ name

/-- `SynthSegConfig.validate_synthseg_path` (SynthSegConfig.py, lines 55-77):
four existence checks performed in order, each failure with its own message. -/
def validate_synthseg_path (fs : FS) (path : String) : Bool × String :=
  if !(fs.pathExists path) then
    (false, "Directory does not exist")
  else if !(fs.pathExists (joinPath (joinPath path "SynthSeg") "predict_synthseg.py")) then
    (false, "SynthSeg/predict_synthseg.py not found")
  else if !(fs.pathExists (joinPath path "models")) then
    (false, "models directory not found")
  else if !(fs.pathExists (joinPath (joinPath path "models") "synthseg_1.0.h5")) then
    (false, "synthseg_1.0.h5 model not found in models/")
  else
    (true, "SynthSeg installation valid")

/-- `SynthSegConfig.is_configured` (SynthSegConfig.py, lines 116-121).  The
loaded JSON configuration record is a flat string-to-string map; the check is
that both keys are present and both stored paths exist on disk. -/
def is_configured (fs : FS) (config : List (String × String)) : Bool :=
  match config.lookup "synthseg_path", config.lookup "python_path" with
  | some sp, some pp => fs.pathExists sp && fs.pathExists pp
  | _, _ => false

/-- One `subprocess.run` invocation: the command argument list and the value
of the `timeout` keyword argument (`none` when the call passes no timeout). -/
structure SubprocCall where
  argv : List String
  timeout : Option Nat
deriving DecidableEq

/-- What a `subprocess.run` call with a timeout did: completed with the
child's return code and captured output, or raised `TimeoutExpired`. -/
inductive RunOutcome where
  | completed (returncode : Int) (stdout stderr : String)
  | timedOut
deriving DecidableEq

/-- The child's exit code, when the call completed. -/
def RunOutcome.exitCode : RunOutcome → Option Int
  | .completed rc _ _ => some rc
  | .timedOut => none

/-- `required_packages` (SynthSegConfig.py, line 88). -/
def required_packages : List String :=
  ["tensorflow", "keras", "nibabel", "scipy", "numpy"]

/-- The combined import check (SynthSegConfig.py, lines 91-93): one `-c`
invocation importing every required package, run with `timeout=10`. -/
def combinedCall (python_path : String) : SubprocCall :=
  { argv := [python_path, "-c",
             "import tensorflow, keras, nibabel, scipy, numpy; print(\"OK\")"],
    timeout := some 10 }

/-- The per-package import check (SynthSegConfig.py, lines 98-99): `-c import
pkg`, run with `timeout=5`. -/
def pkgCall (python_path pkg : String) : SubprocCall :=
  { argv := [python_path, "-c", "import " ++ pkg], timeout := some 5 }

/-- The loop of SynthSegConfig.py lines 96-101: check each package in order,
collect those whose import exits non-zero.  `none` models a `TimeoutExpired`
escaping from one of the per-package `subprocess.run` calls (it aborts the
whole loop and is caught by the enclosing `except`). -/
def collectMissing (run : SubprocCall → RunOutcome) (python_path : String) :
    List String → Option (List String)
  | [] => some []
  | pkg :: rest =>
    match run (pkgCall python_path pkg) with
    | .timedOut => none
    | .completed rc _ _ =>
      match collectMissing run python_path rest with
      | none => none
      | some ms => some (if rc ≠ 0 then pkg :: ms else ms)

/-- `SynthSegConfig.validate_python_env` (SynthSegConfig.py, lines 79-110),
over a filesystem oracle and a subprocess oracle.  A `TimeoutExpired` from the
combined check or from any per-package check is caught by the
`except subprocess.TimeoutExpired` branch. -/
def validate_python_env (fs : FS) (run : SubprocCall → RunOutcome)
    (python_path : String) : Bool × String :=
  if !(fs.pathExists python_path) then
    (false, "Python executable not found")
  else
    match run (combinedCall python_path) with
    | .timedOut => (false, "Python validation timed out")
    | .completed rc _ _ =>
      if rc ≠ 0 then
        match collectMissing run python_path required_packages with
        | none => (false, "Python validation timed out")
        | some missing =>
          (false, "Missing packages: " ++ String.intercalate ", " missing)
      else
        (true, "Python environment valid")

/-- Whether the individual import check of `pkg` exits non-zero (a timeout
also counts as not exiting zero). -/
def pkgImportFails (run : SubprocCall → RunOutcome) (python_path pkg : String) : Bool :=
  match run (pkgCall python_path pkg) with
  | .completed rc _ _ => rc ≠ 0
  | .timedOut => true

/-- When no per-package check times out, the loop collects exactly the
packages whose import exits non-zero, in list order. -/
theorem collectMissing_eq_filter (run : SubprocCall → RunOutcome)
    (python_path : String) (pkgs : List String)
    (h : ∀ pkg ∈ pkgs, run (pkgCall python_path pkg) ≠ .timedOut) :
    collectMissing run python_path pkgs =
      some (pkgs.filter (fun pkg => pkgImportFails run python_path pkg)) := by
  induction pkgs with
  | nil => rfl
  | cons pkg rest ih =>
    have hpkg : run (pkgCall python_path pkg) ≠ .timedOut := h pkg (by simp)
    have hrest : ∀ p ∈ rest, run (pkgCall python_path p) ≠ .timedOut :=
      fun p hp => h p (by simp [hp])
    cases hr : run (pkgCall python_path pkg) with
    | timedOut => exact absurd hr hpkg
    | completed rc out err =>
      simp only [collectMissing, hr, ih hrest, List.filter_cons, pkgImportFails]
      by_cases hrc : rc = 0 <;> simp [hrc]

/-- C3: `validate_synthseg_path` succeeds exactly when all four paths exist,
and otherwise reports the first failing condition, checked in the order
directory, predict script, models directory, model file. -/
theorem validate_synthseg_path_spec (fs : FS) (path : String) :
    (validate_synthseg_path fs path = (true, "SynthSeg installation valid") ↔
      fs.pathExists path = true ∧
      fs.pathExists (joinPath (joinPath path "SynthSeg") "predict_synthseg.py") = true ∧
      fs.pathExists (joinPath path "models") = true ∧
      fs.pathExists (joinPath (joinPath path "models") "synthseg_1.0.h5") = true) ∧
    (fs.pathExists path = false →
      validate_synthseg_path fs path = (false, "Directory does not exist")) ∧
    (fs.pathExists path = true →
      fs.pathExists (joinPath (joinPath path "SynthSeg") "predict_synthseg.py") = false →
      validate_synthseg_path fs path = (false, "SynthSeg/predict_synthseg.py not found")) ∧
    (fs.pathExists path = true →
      fs.pathExists (joinPath (joinPath path "SynthSeg") "predict_synthseg.py") = true →
      fs.pathExists (joinPath path "models") = false →
      validate_synthseg_path fs path = (false, "models directory not found")) ∧
    (fs.pathExists path = true →
      fs.pathExists (joinPath (joinPath path "SynthSeg") "predict_synthseg.py") = true →
      fs.pathExists (joinPath path "models") = true →
      fs.pathExists (joinPath (joinPath path "models") "synthseg_1.0.h5") = false →
      validate_synthseg_path fs path = (false, "synthseg_1.0.h5 model not found in models/")) := by
  unfold validate_synthseg_path
  cases h1 : fs.pathExists path <;>
    cases h2 : fs.pathExists (joinPath (joinPath path "SynthSeg") "predict_synthseg.py") <;>
      cases h3 : fs.pathExists (joinPath path "models") <;>
        cases h4 : fs.pathExists (joinPath (joinPath path "models") "synthseg_1.0.h5") <;>
          simp

/-- C5: `is_configured` returns `true` exactly when the configuration record
holds both the `synthseg_path` and `python_path` keys and both stored paths
exist on disk; nothing else affects the result. -/
theorem is_configured_iff (fs : FS) (config : List (String × String)) :
    is_configured fs config = true ↔
      ∃ sp pp,
        config.lookup "synthseg_path" = some sp ∧
        config.lookup "python_path" = some pp ∧
        fs.pathExists sp = true ∧ fs.pathExists pp = true := by
  unfold is_configured
  cases hs : config.lookup "synthseg_path" <;>
    cases hp : config.lookup "python_path" <;>
      simp [Bool.and_eq_true]

/-- C4: for an existing executable whose per-package checks complete,
`validate_python_env` succeeds exactly when the combined import check exits 0,
and on a non-zero combined exit it reports precisely the required packages
whose individual import exits non-zero. -/
theorem validate_python_env_spec (fs : FS) (run : SubprocCall → RunOutcome)
    (python_path : String)
    (hex : fs.pathExists python_path = true)
    (hpkg : ∀ pkg ∈ required_packages, run (pkgCall python_path pkg) ≠ .timedOut) :
    (validate_python_env fs run python_path = (true, "Python environment valid") ↔
      (run (combinedCall python_path)).exitCode = some 0) ∧
    (∀ rc out err, run (combinedCall python_path) = .completed rc out err → rc ≠ 0 →
      validate_python_env fs run python_path =
        (false, "Missing packages: " ++ String.intercalate ", "
          (required_packages.filter (fun pkg => pkgImportFails run python_path pkg)))) := by
  constructor
  · unfold validate_python_env
    cases hc : run (combinedCall python_path) with
    | timedOut => simp [hex, RunOutcome.exitCode, hc]
    | completed rc out err =>
      by_cases hrc : rc = 0
      · simp [hex, RunOutcome.exitCode, hrc]
      · rw [collectMissing_eq_filter run python_path required_packages hpkg]
        simp [hex, RunOutcome.exitCode, hrc]
  · intro rc out err hc hrc
    unfold validate_python_env
    rw [hex, hc, collectMissing_eq_filter run python_path required_packages hpkg]
    simp [hrc]

/-- A filesystem where every path exists. -/
def fsAll : FS := { pathExists := fun _ => true }

/-- A subprocess oracle where every call completes with exit code 0. -/
def runAllOk : SubprocCall → RunOutcome := fun _ => .completed 0 "" ""

/-- Witness for C4 at a concrete environment: every import succeeds, so the
validation reports a valid Python environment. -/
theorem validate_python_env_spec_witness :
    validate_python_env fsAll runAllOk "/usr/bin/python3" =
      (true, "Python environment valid") :=
  (validate_python_env_spec fsAll runAllOk "/usr/bin/python3" rfl
    (by decide)).1.mpr rfl

/-- A path as a list of components, for the temporary-directory reasoning in
`SlicerSynthSegLogic.process`. -/
abbrev FPath := List String

/-- `str(path)` for a component path. -/
def pathStr (p : FPath) : String := String.intercalate "/" p

/-- The `ProcResult` of the pipeline invocation inside
`SlicerSynthSegLogic.process`: `subprocess.run` is called there without a
`timeout`, so it always completes, with a return code and captured output
(`capture_output=True, text=True`). -/
structure ProcResult where
  returncode : Int
  stdout : String
  stderr : String
deriving DecidableEq

/-- The command `SlicerSynthSegLogic.process` builds (SlicerSynthSeg.py,
lines 418-423) and runs (line 426): no `timeout` argument is passed. -/
def processCall (python_path scriptPath inputPath outputPath : String) : SubprocCall :=
  { argv := [python_path, scriptPath, "--input", inputPath, "--output", outputPath],
    timeout := none }

/-- The collaborators of one `SlicerSynthSegLogic.process` run. -/
structure ProcessEnv where
  /-- `config['python_path']`. -/
  pythonPath : String
  /-- `Path(__file__).parent / 'synthseg_complete.py'`. -/
  scriptPath : String
  /-- What `subprocess.run` returns for each call. -/
  run : SubprocCall → ProcResult
  /-- The file names the pipeline child creates inside the temporary
  directory it was given as `--output`. -/
  childFiles : List String
  /-- The node `slicer.util.loadSegmentation` returns. -/
  loadedSeg : Nat

/-- `SlicerSynthSegLogic.process` (SlicerSynthSeg.py, lines 397-441) acting on
a filesystem (the list of existing paths).  The whole body runs inside
`with tempfile.TemporaryDirectory() as tmpDir`: the directory is created, the
input volume is saved to `tmpDir/input.nii.gz`, the pipeline writes its
outputs into `tmpDir`, and on leaving the `with` block — on normal return and
when an error is raised alike — the directory and everything under it is
removed.  The first component is the outcome (`RuntimeError` message or the
loaded segmentation), the second the filesystem afterwards. -/
def process (env : ProcessEnv) (tmpDir : FPath) (files : List FPath) :
    Except String Nat × List FPath :=
  let files1 := tmpDir :: files
  let inputPath := tmpDir ++ ["input.nii.gz"]
  let files2 := inputPath :: files1
  let r := env.run (processCall env.pythonPath env.scriptPath
    (pathStr inputPath) (pathStr tmpDir))
  let files3 := (env.childFiles.map (fun f => tmpDir ++ [f])) ++ files2
  let outcome : Except String Nat :=
    if r.returncode ≠ 0 then
      .error ("SynthSeg processing failed with exit code " ++ toString r.returncode ++
        "\nstdout: " ++ r.stdout ++ "\nstderr: " ++ r.stderr)
    else if !(files3.contains (tmpDir ++ ["segmentation.nii.gz"])) then
      .error "Segmentation file not created"
    else
      .ok env.loadedSeg
  (outcome, files3.filter (fun p => !(tmpDir.isPrefixOf p)))

/-- A directory path is a prefix of every path below it. -/
theorem isPrefixOf_append_self (d l : List String) : d.isPrefixOf (d ++ l) = true := by
  induction d with
  | nil => simp
  | cons a as ih => simp [ih]

/-- The `result` local variable of `SlicerSynthSegLogic.process`: what the
`subprocess.run` invocation of the pipeline returned. -/
def processResult (env : ProcessEnv) (tmpDir : FPath) : ProcResult :=
  env.run (processCall env.pythonPath env.scriptPath
    (pathStr (tmpDir ++ ["input.nii.gz"])) (pathStr tmpDir))

/-- C1: when the pipeline subprocess exits non-zero,
`SlicerSynthSegLogic.process` raises a `RuntimeError` whose message carries
the exit code and the captured stdout and stderr; when it exits 0 and the
segmentation file exists in the temporary directory, no error is raised and
the loaded segmentation is returned. -/
theorem process_subprocess_errors (env : ProcessEnv) (tmpDir : FPath) (files : List FPath) :
    ((processResult env tmpDir).returncode ≠ 0 →
      (process env tmpDir files).1 =
        .error ("SynthSeg processing failed with exit code " ++
          toString (processResult env tmpDir).returncode ++
          "\nstdout: " ++ (processResult env tmpDir).stdout ++
          "\nstderr: " ++ (processResult env tmpDir).stderr)) ∧
    ((processResult env tmpDir).returncode = 0 →
      "segmentation.nii.gz" ∈ env.childFiles →
      (process env tmpDir files).1 = .ok env.loadedSeg) := by
  constructor
  · intro h
    simp [process, processResult] at h ⊢
    simp [h]
  · intro h hseg
    have hmem : (tmpDir ++ ["segmentation.nii.gz"]) ∈
        env.childFiles.map (fun f => tmpDir ++ [f]) :=
      List.mem_map_of_mem _ hseg
    simp [process, processResult] at h ⊢
    simp [h, List.contains, List.mem_append, hmem]
    exact fun hn => absurd hseg hn

/-- C6: every temporary file of a `process` invocation lives under the one
temporary directory, and leaving the `with tempfile.TemporaryDirectory()`
block — on normal return and on a raised error alike — removes that
directory, so the filesystem afterwards is exactly what it was before. -/
theorem process_temp_cleanup (env : ProcessEnv) (tmpDir : FPath) (files : List FPath)
    (hfresh : ∀ p ∈ files, tmpDir.isPrefixOf p = false) :
    (process env tmpDir files).2 = files := by
  unfold process
  simp only [List.filter_append, List.filter_cons]
  rw [isPrefixOf_append_self tmpDir ["input.nii.gz"]]
  have hself := isPrefixOf_append_self tmpDir []
  rw [List.append_nil] at hself
  rw [hself]
  have hmap : (env.childFiles.map (fun f => tmpDir ++ [f])).filter
      (fun p => !(tmpDir.isPrefixOf p)) = [] := by
    rw [List.filter_eq_nil_iff]
    intro p hp
    rcases List.mem_map.mp hp with ⟨f, _, rfl⟩
    simp [isPrefixOf_append_self]
  have hkeep : files.filter (fun p => !(tmpDir.isPrefixOf p)) = files := by
    rw [List.filter_eq_self]
    intro p hp
    simp [hfresh p hp]
  simp [hmap, hkeep]

/-- A concrete `process` environment: the pipeline succeeds and creates its
two output files in the temporary directory. -/
def envOk : ProcessEnv :=
  { pythonPath := "/opt/conda/bin/python",
    scriptPath := "SlicerSynthSeg/synthseg_complete.py",
    run := fun _ => { returncode := 0, stdout := "", stderr := "" },
    childFiles := ["segmentation.nii.gz", "volumes.xlsx"],
    loadedSeg := 7 }

/-- Witness for C6 at a concrete run: a pre-existing file outside the
temporary directory survives, and nothing of the invocation remains. -/
theorem process_temp_cleanup_witness :
    (process envOk ["tmp", "run1"] [["data", "t1.nii.gz"]]).2 = [["data", "t1.nii.gz"]] :=
  process_temp_cleanup envOk ["tmp", "run1"] [["data", "t1.nii.gz"]] (by decide)

/-- A `TimeoutExpired` from any per-package check aborts the collection loop. -/
theorem collectMissing_eq_none (run : SubprocCall → RunOutcome) (python_path : String)
    (pkgs : List String) (h : ∃ p ∈ pkgs, run (pkgCall python_path p) = .timedOut) :
    collectMissing run python_path pkgs = none := by
  induction pkgs with
  | nil => simp at h
  | cons q rest ih =>
    rcases h with ⟨p, hp, hpto⟩
    rcases List.mem_cons.mp hp with rfl | hq
    · simp [collectMissing, hpto]
    · cases hr : run (pkgCall python_path q) with
      | timedOut => simp [collectMissing, hr]
      | completed rc2 o2 e2 => simp [collectMissing, hr, ih ⟨p, hq, hpto⟩]

/-- C9: a timeout is attached only to the package-import validation
subprocesses — the combined check runs with `timeout=10`, each per-package
check with `timeout=5`, and a `TimeoutExpired` from either makes
`validate_python_env` return the timed-out message instead of propagating —
while the pipeline call issued by `SlicerSynthSegLogic.process` carries no
timeout at all. -/
theorem timeout_policy (fs : FS) (run : SubprocCall → RunOutcome)
    (python_path scriptPath inputPath outputPath pkg : String)
    (hex : fs.pathExists python_path = true) :
    (processCall python_path scriptPath inputPath outputPath).timeout = none ∧
    (combinedCall python_path).timeout = some 10 ∧
    (pkgCall python_path pkg).timeout = some 5 ∧
    (run (combinedCall python_path) = .timedOut →
      validate_python_env fs run python_path = (false, "Python validation timed out")) ∧
    (∀ rc out err, run (combinedCall python_path) = .completed rc out err → rc ≠ 0 →
      (∃ p ∈ required_packages, run (pkgCall python_path p) = .timedOut) →
      validate_python_env fs run python_path = (false, "Python validation timed out")) := by
  refine ⟨rfl, rfl, rfl, ?_, ?_⟩
  · intro hto
    simp [validate_python_env, hex, hto]
  · intro rc out err hc hrc hto
    have hnone := collectMissing_eq_none run python_path required_packages hto
    simp [validate_python_env, hex, hc, hnone, hrc]

/-- A subprocess oracle where every call raises `TimeoutExpired`. -/
def runTimesOut : SubprocCall → RunOutcome := fun _ => .timedOut

/-- Witness for C9 at a concrete environment: the combined check times out
and the validation returns the timed-out message instead of propagating. -/
theorem timeout_policy_witness :
    validate_python_env fsAll runTimesOut "/usr/bin/python3" =
      (false, "Python validation timed out") :=
  (timeout_policy fsAll runTimesOut "/usr/bin/python3" "synthseg_complete.py"
    "/tmp/in.nii.gz" "/tmp/out" "numpy" rfl).2.2.2.1 rfl

/-- A CSV table as `pandas.read_csv` reads `volumes.csv`: the header row of
column names and the data rows. -/
structure CsvTable where
  header : List String
  rows : List (List String)
deriving DecidableEq

/-- `DataFrame.to_excel`: with `index=False` (as `synthseg_complete.py` line
119 passes) the sheet holds exactly the frame's columns and rows; with the
default `index=True` pandas prepends the row index as an extra first
column. -/
def to_excel (df : CsvTable) (index : Bool) : CsvTable :=
  if index then
    { header := "" :: df.header,
      rows := ((List.range df.rows.length).zip df.rows).map
        (fun ir => toString ir.1 :: ir.2) }
  else
    df

/-- How the Excel-export step of `synthseg_complete.main` (lines 111-139)
ended: pandas read the CSV and wrote the spreadsheet; or `import pandas`
raised `ImportError`; or reading/writing raised some other exception. -/
inductive ExcelOutcome where
  | ok
  | importError
  | exportError (msg : String)
deriving DecidableEq

/-- The collaborators of one `synthseg_complete.main` run. -/
structure PipelineEnv where
  /-- `os.path.exists(args.input)`. -/
  inputExists : Bool
  /-- `synthseg_script.exists()` for the bundled SynthSeg predict script. -/
  scriptExists : Bool
  /-- Exit code of the `SynthSeg_predict.py` child process. -/
  childReturncode : Int
  /-- `seg_output.exists()` after the child ran. -/
  segCreated : Bool
  /-- `csv_output.exists()` after the child ran. -/
  csvCreated : Bool
  /-- The table `pandas.read_csv(csv_output)` yields. -/
  csvContent : CsvTable
  /-- Whether `volumes.xlsx` already exists in the output directory before
  this run's Excel step (for instance left over from an earlier run). -/
  xlsxPreexisting : Bool
  /-- How the Excel-export step ended. -/
  excelOutcome : ExcelOutcome
deriving DecidableEq

/-- The run's observable end state, for a run that reached the cleanup step. -/
structure RunArtifacts where
  /-- `csv_output.exists()` when `main` returns. -/
  csvKept : Bool
  /-- `excel_output.exists()` when `main` returns. -/
  xlsxExists : Bool
  /-- The spreadsheet this run wrote, when the export succeeded. -/
  sheet : Option CsvTable
  /-- Whether an Excel-export warning was printed. -/
  warned : Bool
deriving DecidableEq

/-- Whether `volumes.xlsx` exists after the Excel step: the successful export
writes it; a failed or skipped export leaves it as it was. -/
def pipeXlsx (env : PipelineEnv) : Bool :=
  match env.excelOutcome with
  | .ok => true
  | .importError => env.xlsxPreexisting
  | .exportError _ => env.xlsxPreexisting

/-- The spreadsheet the Excel step wrote this run, when it succeeded:
`df.to_excel(writer, sheet_name='Brain Volumes', index=False)` on the frame
read from `volumes.csv`. -/
def pipeSheet (env : PipelineEnv) : Option CsvTable :=
  match env.excelOutcome with
  | .ok => some (to_excel env.csvContent false)
  | .importError => none
  | .exportError _ => none

/-- Whether the Excel step printed a warning (it does on `ImportError` and on
any other exception). -/
def pipeWarned (env : PipelineEnv) : Bool :=
  match env.excelOutcome with
  | .ok => false
  | .importError => true
  | .exportError _ => true

/-- `synthseg_complete.main` (synthseg_complete.py, lines 21-165) with parsed
`--input`/`--output`/`--keep-csv` arguments: the exit code, paired with the
end state of the output directory for runs that reach the cleanup step
(`none` when `sys.exit(1)` fired before it).  The Excel step catches
`ImportError` and any other exception, prints a warning and goes on; the
cleanup (lines 144-148) deletes `volumes.csv` exactly when `--keep-csv` was
not given and both `volumes.csv` and `volumes.xlsx` exist — and `volumes.csv`
does exist there, its existence was just checked and nothing between the
check and the cleanup removes it. -/
def pipelineMain (env : PipelineEnv) (keepCsv : Bool) : Nat × Option RunArtifacts :=
  if !env.inputExists then
    (1, none)
  else if !env.scriptExists then
    (1, none)
  else if env.childReturncode ≠ 0 then
    (1, none)
  else if !env.segCreated then
    (1, none)
  else if !env.csvCreated then
    (1, none)
  else
    let csvAtCleanup := true
    (0, some { csvKept := if !keepCsv && csvAtCleanup && pipeXlsx env then false else true,
               xlsxExists := pipeXlsx env,
               sheet := pipeSheet env,
               warned := pipeWarned env })

/-- A run whose second component is `some` reached the cleanup step: it
exited 0 and its artifacts are determined by the Excel-step outcome. -/
theorem pipelineMain_finished (env : PipelineEnv) (keepCsv : Bool) (a : RunArtifacts)
    (h : (pipelineMain env keepCsv).2 = some a) :
    (pipelineMain env keepCsv).1 = 0 ∧
    a = { csvKept := if !keepCsv && true && pipeXlsx env then false else true,
          xlsxExists := pipeXlsx env,
          sheet := pipeSheet env,
          warned := pipeWarned env } := by
  cases h1 : env.inputExists <;> cases h2 : env.scriptExists <;>
    cases h4 : env.segCreated <;> cases h5 : env.csvCreated <;>
      by_cases h3 : env.childReturncode = 0 <;>
        simp_all [pipelineMain]

/-- C2: `synthseg_complete.main` exits 1 exactly when the input path does not
exist, the bundled predict script is absent, the child exits non-zero, or the
segmentation or CSV output file is missing afterwards; it exits 0 exactly
when none of these failures occurs. -/
theorem pipeline_exit_codes (env : PipelineEnv) (keepCsv : Bool) :
    ((pipelineMain env keepCsv).1 = 1 ↔
      env.inputExists = false ∨ env.scriptExists = false ∨ env.childReturncode ≠ 0 ∨
      env.segCreated = false ∨ env.csvCreated = false) ∧
    ((pipelineMain env keepCsv).1 = 0 ↔
      env.inputExists = true ∧ env.scriptExists = true ∧ env.childReturncode = 0 ∧
      env.segCreated = true ∧ env.csvCreated = true) := by
  unfold pipelineMain
  cases h1 : env.inputExists <;> cases h2 : env.scriptExists <;>
    cases h4 : env.segCreated <;> cases h5 : env.csvCreated <;>
      by_cases h3 : env.childReturncode = 0 <;> simp [h3]

/-- C7: whenever the Excel-export step writes a spreadsheet, it has exactly
as many data rows and as many columns as the CSV table pandas read — the row
index is not written as an extra column, since the export passes
`index=False`. -/
theorem excel_preserves_counts (env : PipelineEnv) (keepCsv : Bool) (s : CsvTable)
    (h : ((pipelineMain env keepCsv).2.bind RunArtifacts.sheet) = some s) :
    s.rows.length = env.csvContent.rows.length ∧
    s.header.length = env.csvContent.header.length := by
  rcases Option.bind_eq_some.mp h with ⟨a, ha, hs⟩
  rcases pipelineMain_finished env keepCsv a ha with ⟨-, rfl⟩
  cases he : env.excelOutcome <;> simp [pipeSheet, he, to_excel] at hs
  rw [← hs]
  exact ⟨rfl, rfl⟩

/-- A concrete successful pipeline run: every step succeeds and the volumes
table has one data row and two columns. -/
def okPipeEnv : PipelineEnv :=
  { inputExists := true, scriptExists := true, childReturncode := 0,
    segCreated := true, csvCreated := true,
    csvContent := { header := ["subject", "total intracranial"],
                    rows := [["t1.nii.gz", "1234567.8"]] },
    xlsxPreexisting := false, excelOutcome := .ok }

/-- Witness for C7 at the concrete run `okPipeEnv`: the sheet written is the
CSV table itself, so the counts agree. -/
theorem excel_preserves_counts_witness :
    okPipeEnv.csvContent.rows.length = okPipeEnv.csvContent.rows.length ∧
    okPipeEnv.csvContent.header.length = okPipeEnv.csvContent.header.length :=
  excel_preserves_counts okPipeEnv false okPipeEnv.csvContent (by decide)

/-- C8: in a run that reaches the cleanup step, `volumes.csv` is deleted
exactly when `--keep-csv` was not given and `volumes.xlsx` exists (and
`volumes.csv` itself exists there, which on this path it always does); with
`--keep-csv` it is always kept. -/
theorem csv_cleanup (env : PipelineEnv) (keepCsv : Bool) (a : RunArtifacts)
    (h : (pipelineMain env keepCsv).2 = some a) :
    (a.csvKept = false ↔ keepCsv = false ∧ a.xlsxExists = true) ∧
    (keepCsv = true → a.csvKept = true) := by
  rcases pipelineMain_finished env keepCsv a h with ⟨-, rfl⟩
  cases keepCsv <;> cases hx : pipeXlsx env <;> simp [hx]

/-- The artifacts of the concrete run `okPipeEnv` without `--keep-csv`: the
export succeeded, so the CSV was deleted. -/
def okArtifacts : RunArtifacts :=
  { csvKept := false, xlsxExists := true,
    sheet := some (to_excel okPipeEnv.csvContent false), warned := false }

/-- Witness for C8 at the concrete run `okPipeEnv` without `--keep-csv`:
`volumes.xlsx` exists, and `volumes.csv` was indeed deleted. -/
theorem csv_cleanup_witness :
    (okArtifacts.csvKept = false ↔ false = false ∧ okArtifacts.xlsxExists = true) ∧
    (false = true → okArtifacts.csvKept = true) :=
  csv_cleanup okPipeEnv false okArtifacts (by decide)

/-- A run where segmentation succeeds, the Excel export raises, and a
`volumes.xlsx` left over from an earlier run already sits in the output
directory. -/
def staleXlsxEnv : PipelineEnv :=
  { inputExists := true, scriptExists := true, childReturncode := 0,
    segCreated := true, csvCreated := true,
    csvContent := { header := [], rows := [] },
    xlsxPreexisting := true,
    excelOutcome := .exportError "No module named openpyxl" }

/-- Counterexample to C10 as stated: in the run `staleXlsxEnv` the Excel
export fails and the pipeline prints a warning and exits 0, yet
`volumes.csv` IS deleted — the cleanup condition only checks that
`volumes.xlsx` exists, and here a stale one does. -/
theorem excel_failure_keeps_csv_cex :
    (pipelineMain staleXlsxEnv false).1 = 0 ∧
    (pipelineMain staleXlsxEnv false).2 =
      some { csvKept := false, xlsxExists := true, sheet := none, warned := true } := by
  decide

/-- C10 (amended): when segmentation succeeds but the Excel-export step
fails, the pipeline prints a warning, writes no spreadsheet, and still exits
0; `volumes.csv` is then deleted exactly when `--keep-csv` was not given and
a `volumes.xlsx` already existed in the output directory — in particular it
is kept whenever no stale `volumes.xlsx` is present. -/
theorem excel_failure_amended (env : PipelineEnv) (keepCsv : Bool) (a : RunArtifacts)
    (hfail : env.excelOutcome ≠ .ok)
    (h : (pipelineMain env keepCsv).2 = some a) :
    (pipelineMain env keepCsv).1 = 0 ∧ a.warned = true ∧ a.sheet = none ∧
    (a.csvKept = false ↔ keepCsv = false ∧ env.xlsxPreexisting = true) := by
  rcases pipelineMain_finished env keepCsv a h with ⟨h0, rfl⟩
  refine ⟨h0, ?_, ?_, ?_⟩
  · cases he : env.excelOutcome <;> simp [pipeWarned, he] at hfail ⊢
  · cases he : env.excelOutcome <;> simp [pipeSheet, he] at hfail ⊢
  · cases he : env.excelOutcome <;> simp [pipeXlsx, he] at hfail ⊢

/-- The run `staleXlsxEnv` with the stale spreadsheet absent. -/
def freshFailEnv : PipelineEnv :=
  { staleXlsxEnv with xlsxPreexisting := false }

/-- Witness for the amended C10 at the concrete run `freshFailEnv`: the
export fails, the run warns and exits 0, and with no stale `volumes.xlsx`
the CSV is kept. -/
theorem excel_failure_amended_witness :
    (pipelineMain freshFailEnv false).1 = 0 ∧
    ({ csvKept := true, xlsxExists := false, sheet := none,
       warned := true } : RunArtifacts).warned = true ∧
    ({ csvKept := true, xlsxExists := false, sheet := none,
       warned := true } : RunArtifacts).sheet = none ∧
    (({ csvKept := true, xlsxExists := false, sheet := none,
        warned := true } : RunArtifacts).csvKept = false ↔
      false = false ∧ freshFailEnv.xlsxPreexisting = true) :=
  excel_failure_amended freshFailEnv false
    { csvKept := true, xlsxExists := false, sheet := none, warned := true }
    (by decide) (by decide)
